import Mathlib

/-!
Shallow embedding of the Daily-task-tracker backend (src/backend/index.js).

The backend is an Express/PostgreSQL application.  We embed the two
persistent tables (logindata, post) as Lean lists, each HTTP route as a
pure function from request data and store state to a response together with
the updated store state, and the jsonwebtoken library as an idealized
signed token: a record carrying its payload, expiry and the signing key,
where verification checks the key and the expiry.  This is the standard
ideal model of a MAC-signed stateless token.  bcryptjs is kept abstract:
the route functions take the hash and compare primitives as parameters.

JavaScript falsiness of request-body fields is modelled on `Option`:
an absent field (`none`) and the empty string are falsy, everything else
truthy.  Timestamp-valued fields travel as non-empty strings in JSON, so
for them only absence is falsy; their values are modelled as integers
(epoch seconds) since the reminder query performs arithmetic on them.
SQL `NULL` is modelled as `none`; the SQL three-valued comparison of a
`NULL` column with a constant is not true, hence the list filters compare
against `some _`.
-/

namespace DailyTask

/-- A row of the logindata table: user id, email, the bcrypt hash stored
in the password column, and the display names. -/
structure UserRow where
  id : Int
  email : String
  password : String
  firstname : String
  lastname : String
deriving Repr, DecidableEq

/-- A row of the post table.  The columns written by unvalidated route
inputs are nullable, hence Option-typed. -/
structure TaskRow where
  id : Int
  user_id : Int
  task : Option String
  type : Option String
  timeofentry : Option Int
  completestatus : Option Bool
  remindertime : Option Int
  currentstatus : Option Bool
deriving Repr, DecidableEq

/-- The persistent state: both tables plus the id sequences the database
uses for generated primary keys. -/
structure Store where
  logindata : List UserRow
  post : List TaskRow
  nextUserId : Int
  nextTaskId : Int
deriving Repr, DecidableEq

/-- The deliberate error responses the routes produce, tagged with the
message string of the source. -/
inductive ApiError where
  | validationError (msg : String)
  | conflictError (msg : String)
  | notFoundError (msg : String)
  | authenticationError (msg : String)
deriving Repr, DecidableEq

/-- HTTP status code attached to each deliberate error response. -/
def ApiError.statusCode : ApiError → Nat
  | .validationError _ => 400
  | .conflictError _ => 409
  | .notFoundError _ => 404
  | .authenticationError _ => 401

/-- JS truthiness of an optional string body field: absent and the empty
string are falsy. -/
def truthyStr : Option String → Bool
  | none => false
  | some s => s ≠ ""

/-- JS truthiness of an optional timestamp body field (timestamps are
non-empty JSON strings, modelled by their integer value): only absence is
falsy. -/
def truthyTime : Option Int → Bool
  | none => false
  | some _ => true

/-- An idealized signed token produced by jwt.sign with a one hour expiry:
payload fields userId and email, issuance time iat, expiry exp, and the
signing key standing for the signature. -/
structure Token where
  userId : Int
  email : String
  iat : Int
  exp : Int
  key : String
deriving Repr, DecidableEq

/-- Model of jwt.sign on payload userId and email with expiresIn one hour,
called at clock time now (seconds). -/
def jwtSign (userId : Int) (email : String) (secret : String) (now : Int) : Token :=
  { userId := userId, email := email, iat := now, exp := now + 3600, key := secret }

/-- Model of jwt.verify at clock time now: succeeds with the decoded
payload iff the signature matches the secret and the token is not expired
(jsonwebtoken rejects once now is at or past exp). -/
def jwtVerify (t : Token) (secret : String) (now : Int) : Option (Int × String) :=
  if t.key = secret ∧ now < t.exp then some (t.userId, t.email) else none

/-- Outcome of the validateToken middleware: 401 when no token is
supplied, 403 when verification fails, else the decoded identity. -/
inductive AuthResult where
  | missing
  | invalid
  | ok (userId : Int) (email : String)
deriving Repr, DecidableEq

/-- The validateToken middleware (src/backend/index.js lines 38-53). -/
def validateToken (tok : Option Token) (secret : String) (now : Int) : AuthResult :=
  match tok with
  | none => .missing
  | some t =>
    match jwtVerify t secret now with
    | none => .invalid
    | some (uid, email) => .ok uid email

/-- Request body of POST /register. -/
structure RegisterBody where
  email : Option String
  password : Option String
  firstname : Option String
  lastname : Option String
deriving Repr, DecidableEq

/-- The projection RETURNING id, email, firstname, lastname: the user
object sent back on successful registration (no password column). -/
structure PublicUser where
  id : Int
  email : String
  firstname : String
  lastname : String
deriving Repr, DecidableEq

/-- Route POST /register (lines 86-108).  The parameter hash stands for
bcrypt.hash with cost 10, a salted one-way hash primitive. -/
def register (hash : String → String) (b : RegisterBody) (s : Store) :
    Except ApiError PublicUser × Store :=
  if !truthyStr b.email || !truthyStr b.password
      || !truthyStr b.firstname || !truthyStr b.lastname then
    (.error (.validationError "Email, password, firstname, and lastname are required"), s)
  else
    if (s.logindata.filter (fun u => u.email == b.email.getD "")).length > 0 then
      (.error (.conflictError "Email already registered"), s)
    else
      (.ok { id := s.nextUserId, email := b.email.getD ""
             firstname := b.firstname.getD "", lastname := b.lastname.getD "" },
       { s with
          logindata := s.logindata ++
            [{ id := s.nextUserId, email := b.email.getD ""
               password := hash (b.password.getD "")
               firstname := b.firstname.getD "", lastname := b.lastname.getD "" }]
          nextUserId := s.nextUserId + 1 })

/-- Request body of POST /login. -/
structure LoginBody where
  email : Option String
  password : Option String
deriving Repr, DecidableEq

/-- Successful login response: the signed token plus the firstname of the
matched user. -/
structure LoginSuccess where
  token : Token
  firstname : String
deriving Repr, DecidableEq

/-- Route POST /login (lines 111-140).  The parameter compare stands for
bcrypt.compare applied to the plaintext and the stored hash. -/
def login (compare : String → String → Bool) (secret : String) (now : Int)
    (b : LoginBody) (s : Store) : Except ApiError LoginSuccess × Store :=
  if !truthyStr b.email || !truthyStr b.password then
    (.error (.validationError "Email and password are required"), s)
  else
    match s.logindata.filter (fun u => u.email == b.email.getD "") with
    | [] => (.error (.notFoundError "User not found"), s)
    | user :: _ =>
      if compare (b.password.getD "") user.password then
        (.ok { token := jwtSign user.id user.email secret now
               firstname := user.firstname }, s)
      else
        (.error (.authenticationError "Incorrect password"), s)

/-- Comparison backing ORDER BY timeofentry DESC (PostgreSQL sorts NULL
first under DESC): the first argument may come no later than the second. -/
def timeDescB : Option Int → Option Int → Bool
  | none, _ => true
  | some _, none => false
  | some x, some y => y ≤ x

/-- The sort relation on task rows induced by ORDER BY timeofentry DESC. -/
def timeofentryDesc (a b : TaskRow) : Prop :=
  timeDescB a.timeofentry b.timeofentry = true

instance : DecidableRel timeofentryDesc := fun a b =>
  inferInstanceAs (Decidable (_ = true))

instance : IsTotal TaskRow timeofentryDesc := by
  constructor
  intro a b
  unfold timeofentryDesc timeDescB
  rcases a.timeofentry with _ | x <;> rcases b.timeofentry with _ | y <;> simp
  omega

instance : IsTrans TaskRow timeofentryDesc := by
  constructor
  intro a b c
  unfold timeofentryDesc timeDescB
  rcases a.timeofentry with _ | x <;> rcases b.timeofentry with _ | y <;>
    rcases c.timeofentry with _ | z <;> simp
  omega

/-- Row predicate of GET /tasks (lines 157-168): user_id matches and
completestatus = FALSE AND currentstatus = FALSE. -/
def pendingFilter (uid : Int) (r : TaskRow) : Bool :=
  r.user_id == uid && r.completestatus == some false && r.currentstatus == some false

/-- Route GET /tasks: the pending list. -/
def listPending (uid : Int) (s : Store) : List TaskRow :=
  List.insertionSort timeofentryDesc (s.post.filter (pendingFilter uid))

/-- Row predicate of GET /taskschange (lines 171-182): user_id matches and
completestatus = TRUE AND currentstatus = FALSE. -/
def completedFilter (uid : Int) (r : TaskRow) : Bool :=
  r.user_id == uid && r.completestatus == some true && r.currentstatus == some false

/-- Route GET /taskschange: the completed list. -/
def listCompleted (uid : Int) (s : Store) : List TaskRow :=
  List.insertionSort timeofentryDesc (s.post.filter (completedFilter uid))

/-- The SQL condition remindertime - CURRENT_TIMESTAMP < INTERVAL 30
minutes at clock time now (seconds); not true when remindertime is NULL. -/
def reminderSoon (now : Int) (r : TaskRow) : Bool :=
  match r.remindertime with
  | none => false
  | some rt => rt - now < 1800

/-- Route GET /remindertasks (lines 288-298): rows of the user whose
reminder fires within 30 minutes or already fired, newest timeofentry
first, LIMIT 5. -/
def listReminders (uid : Int) (now : Int) (s : Store) : List TaskRow :=
  (List.insertionSort timeofentryDesc
    (s.post.filter (fun r => r.user_id == uid && reminderSoon now r))).take 5

/-- The scope WHERE id = tid AND user_id = uid of every task update. -/
def matchesOwned (uid tid : Int) (r : TaskRow) : Bool :=
  r.id == tid && r.user_id == uid

/-- Request body of the three status-transition PATCH routes. -/
structure StatusBody where
  completestatus : Option Bool
  currentstatus : Option Bool
deriving Repr, DecidableEq

/-- Request body of PUT /tasks/:id. -/
structure EditBody where
  editedtask : Option String
  editedtype : Option String
deriving Repr, DecidableEq

/-- An SQL UPDATE over a table: apply f to every row satisfying p, leave
the other rows alone. -/
def sqlUpdate (p : TaskRow → Bool) (f : TaskRow → TaskRow) (l : List TaskRow) :
    List TaskRow :=
  l.map (fun r => if p r then f r else r)

/-- The clause SET completestatus = $1, currentstatus = $2 of the three
status PATCH routes. -/
def setFlags (b : StatusBody) (r : TaskRow) : TaskRow :=
  { r with completestatus := b.completestatus, currentstatus := b.currentstatus }

/-- The clause SET task = $1, type = $2 of PUT /tasks/:id. -/
def setContent (b : EditBody) (r : TaskRow) : TaskRow :=
  { r with task := b.editedtask, type := b.editedtype }

/-- Request body of POST /tasks. -/
structure CreateBody where
  task : Option String
  type : Option String
  timeofentry : Option Int
  completestatus : Option Bool
  remindertime : Option Int
  currentstatus : Option Bool
deriving Repr, DecidableEq

/-- Route POST /tasks (lines 185-201): validates only task, type and
remindertime; inserts every body value verbatim (absent values become SQL
NULL). -/
def createTask (uid : Int) (b : CreateBody) (s : Store) :
    Except ApiError TaskRow × Store :=
  if !truthyStr b.task || !truthyStr b.type || !truthyTime b.remindertime then
    (.error (.validationError "Task, type, and remindertime are required"), s)
  else
    let row : TaskRow :=
      { id := s.nextTaskId, user_id := uid, task := b.task, type := b.type
        timeofentry := b.timeofentry, completestatus := b.completestatus
        remindertime := b.remindertime, currentstatus := b.currentstatus }
    (.ok row, { s with post := s.post ++ [row], nextTaskId := s.nextTaskId + 1 })

/-- Route PATCH /tasks/:id (lines 204-221): unconditional UPDATE of both
flags on the owned row, 404 when no row matched. -/
def patchTasks (uid tid : Int) (b : StatusBody) (s : Store) :
    Except ApiError TaskRow × Store :=
  match (sqlUpdate (matchesOwned uid tid) (setFlags b) s.post).filter
      (matchesOwned uid tid) with
  | [] => (.error (.notFoundError "Task not found or unauthorized"), s)
  | row :: _ =>
    (.ok row, { s with post := sqlUpdate (matchesOwned uid tid) (setFlags b) s.post })

/-- Route PATCH /dtasks/:id (lines 224-241): the same statement as
PATCH /tasks/:id. -/
def patchDtasks (uid tid : Int) (b : StatusBody) (s : Store) :
    Except ApiError TaskRow × Store :=
  match (sqlUpdate (matchesOwned uid tid) (setFlags b) s.post).filter
      (matchesOwned uid tid) with
  | [] => (.error (.notFoundError "Task not found or unauthorized"), s)
  | row :: _ =>
    (.ok row, { s with post := sqlUpdate (matchesOwned uid tid) (setFlags b) s.post })

/-- Route PATCH /taskschange/:id (lines 267-284): the same statement
again. -/
def patchTaskschange (uid tid : Int) (b : StatusBody) (s : Store) :
    Except ApiError TaskRow × Store :=
  match (sqlUpdate (matchesOwned uid tid) (setFlags b) s.post).filter
      (matchesOwned uid tid) with
  | [] => (.error (.notFoundError "Task not found or unauthorized"), s)
  | row :: _ =>
    (.ok row, { s with post := sqlUpdate (matchesOwned uid tid) (setFlags b) s.post })

/-- Route PUT /tasks/:id (lines 244-264): requires editedtask; overwrites
task and type (an absent editedtype overwrites with NULL), 404 when no row
matched. -/
def editContent (uid tid : Int) (b : EditBody) (s : Store) :
    Except ApiError TaskRow × Store :=
  if !truthyStr b.editedtask then
    (.error (.validationError "Task content is required"), s)
  else
    match (sqlUpdate (matchesOwned uid tid) (setContent b) s.post).filter
        (matchesOwned uid tid) with
    | [] => (.error (.notFoundError "Task not found or unauthorized"), s)
    | row :: _ =>
      (.ok row, { s with post := sqlUpdate (matchesOwned uid tid) (setContent b) s.post })

/-! Shared helper lemmas. -/

/-- Membership is preserved by the ORDER BY sort. -/
theorem mem_insertionSort_iff (r : TaskRow → TaskRow → Prop) [DecidableRel r]
    (l : List TaskRow) (a : TaskRow) :
    a ∈ List.insertionSort r l ↔ a ∈ l :=
  (List.perm_insertionSort r l).mem_iff

/-- A filter result is nonempty iff some row satisfies the predicate. -/
theorem filter_length_pos {α : Type} {p : α → Bool} {l : List α} :
    0 < (l.filter p).length ↔ ∃ a ∈ l, p a = true := by
  rw [List.length_pos, Ne, List.filter_eq_nil_iff]
  push_neg
  simp

/-- A SET clause that does not touch the columns of the WHERE scope leaves
scope membership of every row unchanged. -/
theorem sqlUpdate_scope {p : TaskRow → Bool} {f : TaskRow → TaskRow}
    (hf : ∀ r, p (f r) = p r) (r : TaskRow) :
    p (if p r then f r else r) = p r := by
  by_cases h : p r = true <;> simp [h, hf]

/-- If an UPDATE matched no row, every row of the table is outside the
WHERE scope (the SET clause not touching the scope columns). -/
theorem sqlUpdate_filter_nil {p : TaskRow → Bool} {f : TaskRow → TaskRow}
    (hf : ∀ r, p (f r) = p r) (l : List TaskRow)
    (h : (sqlUpdate p f l).filter p = []) : ∀ r ∈ l, p r = false := by
  intro r hr
  have hm : (if p r then f r else r) ∈ sqlUpdate p f l := by
    unfold sqlUpdate
    exact List.mem_map.mpr ⟨r, hr, rfl⟩
  have := List.filter_eq_nil_iff.mp h _ hm
  rw [sqlUpdate_scope hf] at this
  simpa using this

/-- An UPDATE whose WHERE scope matches no row leaves the table unchanged. -/
theorem sqlUpdate_id (p : TaskRow → Bool) (f : TaskRow → TaskRow) (l : List TaskRow)
    (h : ∀ r ∈ l, p r = false) : sqlUpdate p f l = l := by
  unfold sqlUpdate
  rw [show (l.map fun r => if p r then f r else r) = l.map id from
    List.map_congr_left (fun a ha => by simp [h a ha]), List.map_id]

/-- Overwriting the two status flags does not move a row in or out of the
WHERE id AND user_id scope. -/
theorem matchesOwned_setFlags (uid tid : Int) (b : StatusBody) (r : TaskRow) :
    matchesOwned uid tid (setFlags b r) = matchesOwned uid tid r := rfl

/-- Overwriting task and type does not move a row in or out of the
WHERE id AND user_id scope. -/
theorem matchesOwned_setContent (uid tid : Int) (b : EditBody) (r : TaskRow) :
    matchesOwned uid tid (setContent b r) = matchesOwned uid tid r := rfl

/-! Claim theorems. -/

/-- C1: a task row appears in the pending list (GET /tasks) iff it is a
row of the user with completestatus = false and currentstatus = false,
appears in the completed list (GET /taskschange) iff it is a row of the
user with completestatus = true and currentstatus = false, appears in
neither list whenever currentstatus = true, and no row is ever in both
lists at once. -/
theorem c1_pending_completed_views (uid : Int) (s : Store) (t : TaskRow) :
    (t ∈ listPending uid s ↔
      t ∈ s.post ∧ t.user_id = uid ∧ t.completestatus = some false ∧
        t.currentstatus = some false) ∧
    (t ∈ listCompleted uid s ↔
      t ∈ s.post ∧ t.user_id = uid ∧ t.completestatus = some true ∧
        t.currentstatus = some false) ∧
    (t.currentstatus = some true →
      t ∉ listPending uid s ∧ t ∉ listCompleted uid s) ∧
    ¬(t ∈ listPending uid s ∧ t ∈ listCompleted uid s) := by
  have hp : t ∈ listPending uid s ↔
      t ∈ s.post ∧ t.user_id = uid ∧ t.completestatus = some false ∧
        t.currentstatus = some false := by
    unfold listPending
    rw [mem_insertionSort_iff, List.mem_filter]
    simp [pendingFilter, and_assoc]
  have hc : t ∈ listCompleted uid s ↔
      t ∈ s.post ∧ t.user_id = uid ∧ t.completestatus = some true ∧
        t.currentstatus = some false := by
    unfold listCompleted
    rw [mem_insertionSort_iff, List.mem_filter]
    simp [completedFilter, and_assoc]
  refine ⟨hp, hc, ?_, ?_⟩
  · intro hcur
    constructor
    · intro hmem
      have := (hp.mp hmem).2.2.2
      rw [hcur] at this
      exact Bool.noConfusion (Option.some.inj this)
    · intro hmem
      have := (hc.mp hmem).2.2.2
      rw [hcur] at this
      exact Bool.noConfusion (Option.some.inj this)
  · rintro ⟨h1, h2⟩
    have hf := (hp.mp h1).2.2.1
    have ht := (hc.mp h2).2.2.1
    rw [hf] at ht
    exact Bool.noConfusion (Option.some.inj ht)

/-- C2: GET /remindertasks returns only rows of the user whose reminder
fires within the next 30 minutes or has already passed (the comparison has
no lower bound), ordered by timeofentry descending, with at most 5 rows;
and whenever at most 5 rows of the user qualify, every qualifying row is
returned. -/
theorem c2_listReminders_spec (uid now : Int) (s : Store) :
    (∀ t ∈ listReminders uid now s,
      t ∈ s.post ∧ t.user_id = uid ∧
        ∃ rt, t.remindertime = some rt ∧ rt - now < 1800) ∧
    List.Sorted timeofentryDesc (listReminders uid now s) ∧
    (listReminders uid now s).length ≤ 5 ∧
    ((s.post.filter (fun r => r.user_id == uid && reminderSoon now r)).length ≤ 5 →
      ∀ t ∈ s.post, t.user_id = uid → reminderSoon now t = true →
        t ∈ listReminders uid now s) := by
  refine ⟨?_, ?_, ?_, ?_⟩
  · intro t ht
    have h1 : t ∈ List.insertionSort timeofentryDesc
        (s.post.filter (fun r => r.user_id == uid && reminderSoon now r)) :=
      List.take_subset 5 _ ht
    rw [mem_insertionSort_iff, List.mem_filter] at h1
    obtain ⟨hmem, hp⟩ := h1
    rw [Bool.and_eq_true, beq_iff_eq] at hp
    refine ⟨hmem, hp.1, ?_⟩
    have hs := hp.2
    rcases hrt : t.remindertime with _ | rt
    · simp [reminderSoon, hrt] at hs
    · refine ⟨rt, rfl, ?_⟩
      simpa [reminderSoon, hrt] using hs
  · exact List.Pairwise.sublist (List.take_sublist 5 _)
      (List.sorted_insertionSort timeofentryDesc _)
  · exact List.length_take_le 5 _
  · intro hle t htmem huid hsoon
    have hlen : (List.insertionSort timeofentryDesc
        (s.post.filter (fun r => r.user_id == uid && reminderSoon now r))).length ≤ 5 := by
      rw [(List.perm_insertionSort timeofentryDesc _).length_eq]
      exact hle
    unfold listReminders
    rw [List.take_of_length_le hlen, mem_insertionSort_iff, List.mem_filter]
    exact ⟨htmem, by simp [huid, hsoon]⟩

/-- C3: POST /register fails with ValidationError (status 400) when any of
the four fields is empty, fails with ConflictError (status 409) when a row
with that email already exists, and on success appends exactly one row
whose password column is the output of the salted one-way hash primitive
(hence never the plaintext whenever the hash differs from its input) and
answers a user object consisting of exactly id, email, firstname and
lastname, with no password field. -/
theorem c3_register_contract (hash : String → String) (b : RegisterBody) (s : Store) :
    ((truthyStr b.email = false ∨ truthyStr b.password = false ∨
      truthyStr b.firstname = false ∨ truthyStr b.lastname = false) →
      register hash b s =
        (.error (.validationError
          "Email, password, firstname, and lastname are required"), s) ∧
      (ApiError.validationError
        "Email, password, firstname, and lastname are required").statusCode = 400) ∧
    (truthyStr b.email = true → truthyStr b.password = true →
     truthyStr b.firstname = true → truthyStr b.lastname = true →
      ((∃ u ∈ s.logindata, u.email = b.email.getD "") →
        register hash b s = (.error (.conflictError "Email already registered"), s) ∧
        (ApiError.conflictError "Email already registered").statusCode = 409) ∧
      ((∀ u ∈ s.logindata, u.email ≠ b.email.getD "") →
        register hash b s =
          (.ok { id := s.nextUserId, email := b.email.getD ""
                 firstname := b.firstname.getD "", lastname := b.lastname.getD "" },
           { s with
              logindata := s.logindata ++
                [{ id := s.nextUserId, email := b.email.getD ""
                   password := hash (b.password.getD "")
                   firstname := b.firstname.getD "", lastname := b.lastname.getD "" }]
              nextUserId := s.nextUserId + 1 }) ∧
        (hash (b.password.getD "") ≠ b.password.getD "" →
          ∀ u ∈ (register hash b s).2.logindata,
            u ∉ s.logindata → u.password ≠ b.password.getD ""))) := by
  refine ⟨fun h => ⟨?_, rfl⟩, fun h1 h2 h3 h4 => ⟨fun hex => ⟨?_, rfl⟩, fun hall => ?_⟩⟩
  · rcases h with h | h | h | h <;> simp [register, h]
  · have hcond : 0 < (s.logindata.filter
        (fun u => u.email == b.email.getD "")).length := by
      obtain ⟨u, hu, he⟩ := hex
      exact filter_length_pos.mpr ⟨u, hu, by simp [he]⟩
    simp [register, h1, h2, h3, h4, hcond]
  · have hcond : ¬ 0 < (s.logindata.filter
        (fun u => u.email == b.email.getD "")).length := by
      rw [filter_length_pos]
      push_neg
      intro u hu
      simp [hall u hu]
    have hsucc : register hash b s =
        (.ok { id := s.nextUserId, email := b.email.getD ""
               firstname := b.firstname.getD "", lastname := b.lastname.getD "" },
         { s with
            logindata := s.logindata ++
              [{ id := s.nextUserId, email := b.email.getD ""
                 password := hash (b.password.getD "")
                 firstname := b.firstname.getD "", lastname := b.lastname.getD "" }]
            nextUserId := s.nextUserId + 1 }) := by
      simp [register, h1, h2, h3, h4, hcond]
    refine ⟨hsucc, fun hne u hu hnew => ?_⟩
    rw [hsucc] at hu
    simp only [List.mem_append, List.mem_singleton] at hu
    rcases hu with hu | hu
    · exact absurd hu hnew
    · rw [hu]
      exact hne

/-- C4: POST /login fails with ValidationError (400) when email or
password is empty, with NotFoundError (404) when no row matches the email,
with AuthenticationError (401) when the bcrypt comparison fails, and on
success answers the firstname of the matched user together with a signed
token embedding exactly that userId and email, expiring one hour after
issuance. -/
theorem c4_login_contract (compare : String → String → Bool) (secret : String)
    (now : Int) (b : LoginBody) (s : Store) :
    ((truthyStr b.email = false ∨ truthyStr b.password = false) →
      login compare secret now b s =
        (.error (.validationError "Email and password are required"), s) ∧
      (ApiError.validationError "Email and password are required").statusCode = 400) ∧
    (truthyStr b.email = true → truthyStr b.password = true →
      ((∀ u ∈ s.logindata, u.email ≠ b.email.getD "") →
        login compare secret now b s = (.error (.notFoundError "User not found"), s) ∧
        (ApiError.notFoundError "User not found").statusCode = 404) ∧
      (∀ u rest, s.logindata.filter (fun x => x.email == b.email.getD "") = u :: rest →
        (compare (b.password.getD "") u.password = false →
          login compare secret now b s =
            (.error (.authenticationError "Incorrect password"), s) ∧
          (ApiError.authenticationError "Incorrect password").statusCode = 401) ∧
        (compare (b.password.getD "") u.password = true →
          login compare secret now b s =
            (.ok { token := jwtSign u.id u.email secret now
                   firstname := u.firstname }, s) ∧
          (jwtSign u.id u.email secret now).userId = u.id ∧
          (jwtSign u.id u.email secret now).email = u.email ∧
          (jwtSign u.id u.email secret now).exp = now + 3600))) := by
  refine ⟨fun h => ⟨?_, rfl⟩, fun h1 h2 => ⟨fun hall => ⟨?_, rfl⟩,
    fun u rest hfe => ⟨fun hcmp => ⟨?_, rfl⟩, fun hcmp => ⟨?_, rfl, rfl, rfl⟩⟩⟩⟩
  · rcases h with h | h <;> simp [login, h]
  · have hnil : s.logindata.filter (fun x => x.email == b.email.getD "") = [] :=
      List.filter_eq_nil_iff.mpr (fun a ha => by simp [hall a ha])
    simp [login, h1, h2, hnil]
  · simp [login, h1, h2, hfe, hcmp]
  · simp [login, h1, h2, hfe, hcmp]

/-- Inversion of a successful login: the answer comes from a stored row
matching the supplied email, the token is the signed one-hour token over
that row, and the store is unchanged. -/
theorem login_ok_inv (compare : String → String → Bool) (secret : String)
    (t0 : Int) (b : LoginBody) (s : Store) (out : LoginSuccess) (s' : Store)
    (h : login compare secret t0 b s = (.ok out, s')) :
    ∃ u, u ∈ s.logindata ∧ u.email = b.email.getD "" ∧
      out.token = jwtSign u.id u.email secret t0 ∧
      out.firstname = u.firstname ∧ s' = s := by
  unfold login at h
  split at h
  · simp at h
  · split at h
    · simp at h
    · rename_i u rest hfe
      split at h
      · rename_i hcmp
        have hu : u ∈ s.logindata.filter (fun x => x.email == b.email.getD "") := by
          rw [hfe]
          exact List.mem_cons_self u rest
        rw [List.mem_filter] at hu
        injection h with ha hb
        injection ha with hc
        exact ⟨u, hu.1, by simpa using hu.2, by rw [← hc], by rw [← hc], hb.symm⟩
      · simp at h

/-- C5: a token issued by a successful login decodes, through the
validateToken middleware with the same secret, to exactly the userId and
email of the stored row that login matched, as long as the clock is before
issuance plus one hour; once issuance plus one hour has elapsed the same
token is rejected. -/
theorem c5_token_roundtrip (compare : String → String → Bool) (secret : String)
    (t0 : Int) (b : LoginBody) (s : Store) (out : LoginSuccess) (s' : Store)
    (now : Int) (h : login compare secret t0 b s = (.ok out, s')) :
    (∃ u ∈ s.logindata, out.token.userId = u.id ∧ out.token.email = u.email) ∧
    out.token.iat = t0 ∧ out.token.exp = t0 + 3600 ∧
    (now < t0 + 3600 →
      validateToken (some out.token) secret now = .ok out.token.userId out.token.email) ∧
    (t0 + 3600 ≤ now → validateToken (some out.token) secret now = .invalid) := by
  obtain ⟨u, hu, he, htok, hfn, hs⟩ := login_ok_inv compare secret t0 b s out s' h
  refine ⟨⟨u, hu, by rw [htok]; rfl, by rw [htok]; rfl⟩,
    by rw [htok]; rfl, by rw [htok]; rfl, ?_, ?_⟩
  · intro hlt
    rw [htok]
    simp [validateToken, jwtVerify, jwtSign, hlt]
  · intro hge
    rw [htok]
    simp [validateToken, jwtVerify, jwtSign, not_lt.mpr hge]

/-- C6: when no row owned by the caller carries the requested id (in
particular when the row exists but belongs to another user), the status
update PATCH /tasks/:id and the content update PUT /tasks/:id answer
exactly the NotFoundError of a nonexistent id and return the store
unchanged, so the response never distinguishes the two cases. -/
theorem c6_ownership_isolation (uid tid : Int) (sb : StatusBody) (eb : EditBody)
    (s : Store) (hmiss : ∀ r ∈ s.post, r.id = tid → r.user_id ≠ uid) :
    patchTasks uid tid sb s =
      (.error (.notFoundError "Task not found or unauthorized"), s) ∧
    (truthyStr eb.editedtask = true →
      editContent uid tid eb s =
        (.error (.notFoundError "Task not found or unauthorized"), s)) := by
  have hall : ∀ r ∈ s.post, matchesOwned uid tid r = false := by
    intro r hr
    unfold matchesOwned
    by_cases h1 : r.id = tid
    · simp [h1, hmiss r hr h1]
    · simp [h1]
  have hfnil : List.filter (matchesOwned uid tid) s.post = [] :=
    List.filter_eq_nil_iff.mpr (fun a ha => by simp [hall a ha])
  constructor
  · simp [patchTasks, sqlUpdate_id _ _ _ hall, hfnil]
  · intro htr
    simp [editContent, htr, sqlUpdate_id _ _ _ hall, hfnil]

/-- C8: PUT /tasks/:id fails with ValidationError (status 400) when
editedtask is empty, fails with NotFoundError (status 404) when no owned
row matches, and otherwise rewrites exactly the owned rows, setting task
to editedtask and type to editedtype (an absent editedtype writes NULL)
while every other column of every row is unchanged. -/
theorem c8_editContent_contract (uid tid : Int) (b : EditBody) (s : Store) :
    (truthyStr b.editedtask = false →
      editContent uid tid b s =
        (.error (.validationError "Task content is required"), s) ∧
      (ApiError.validationError "Task content is required").statusCode = 400) ∧
    (truthyStr b.editedtask = true →
      ((∀ r ∈ s.post, matchesOwned uid tid r = false) →
        editContent uid tid b s =
          (.error (.notFoundError "Task not found or unauthorized"), s) ∧
        (ApiError.notFoundError "Task not found or unauthorized").statusCode = 404) ∧
      (editContent uid tid b s).2.post =
        sqlUpdate (matchesOwned uid tid) (setContent b) s.post) ∧
    (∀ r : TaskRow, (setContent b r).task = b.editedtask ∧
      (setContent b r).type = b.editedtype ∧ (setContent b r).id = r.id ∧
      (setContent b r).user_id = r.user_id ∧
      (setContent b r).timeofentry = r.timeofentry ∧
      (setContent b r).completestatus = r.completestatus ∧
      (setContent b r).remindertime = r.remindertime ∧
      (setContent b r).currentstatus = r.currentstatus) := by
  refine ⟨fun h => ⟨?_, rfl⟩, fun htr => ⟨fun hall => ⟨?_, rfl⟩, ?_⟩,
    fun r => ⟨rfl, rfl, rfl, rfl, rfl, rfl, rfl, rfl⟩⟩
  · simp [editContent, h]
  · have hfnil : List.filter (matchesOwned uid tid) s.post = [] :=
      List.filter_eq_nil_iff.mpr (fun a ha => by simp [hall a ha])
    simp [editContent, htr, sqlUpdate_id _ _ _ hall, hfnil]
  · rcases hfe : (sqlUpdate (matchesOwned uid tid) (setContent b) s.post).filter
        (matchesOwned uid tid) with _ | ⟨row, rest⟩
    · have hall := sqlUpdate_filter_nil (matchesOwned_setContent uid tid b) s.post hfe
      have hfnil : List.filter (matchesOwned uid tid) s.post = [] :=
        List.filter_eq_nil_iff.mpr (fun a ha => by simp [hall a ha])
      simp [editContent, htr, hfe, sqlUpdate_id _ _ _ hall, hfnil]
    · simp [editContent, htr, hfe]

/-- C9: POST /tasks validates only task, type and remindertime and inserts
the caller values for timeofentry, completestatus and currentstatus
verbatim, absent ones included (stored as NULL); the status route
PATCH /tasks/:id likewise writes both flags verbatim on every matched row,
with no default applied. -/
theorem c9_no_validation_verbatim (uid tid : Int) (cb : CreateBody)
    (sb : StatusBody) (s : Store) (htask : truthyStr cb.task = true)
    (htype : truthyStr cb.type = true) (hrem : truthyTime cb.remindertime = true) :
    createTask uid cb s =
      (.ok { id := s.nextTaskId, user_id := uid, task := cb.task, type := cb.type
             timeofentry := cb.timeofentry, completestatus := cb.completestatus
             remindertime := cb.remindertime, currentstatus := cb.currentstatus },
       { s with
          post := s.post ++
            [{ id := s.nextTaskId, user_id := uid, task := cb.task, type := cb.type
               timeofentry := cb.timeofentry, completestatus := cb.completestatus
               remindertime := cb.remindertime, currentstatus := cb.currentstatus }]
          nextTaskId := s.nextTaskId + 1 }) ∧
    (∀ r ∈ (patchTasks uid tid sb s).2.post, matchesOwned uid tid r = true →
      r.completestatus = sb.completestatus ∧ r.currentstatus = sb.currentstatus) := by
  constructor
  · simp [createTask, htask, htype, hrem]
  · rcases hfe : (sqlUpdate (matchesOwned uid tid) (setFlags sb) s.post).filter
        (matchesOwned uid tid) with _ | ⟨row, rest⟩
    · have hall := sqlUpdate_filter_nil (matchesOwned_setFlags uid tid sb) s.post hfe
      intro r hr hmatch
      rw [show (patchTasks uid tid sb s).2 = s from by simp [patchTasks, hfe]] at hr
      exact absurd hmatch (by simp [hall r hr])
    · intro r hr hmatch
      have h2 : (patchTasks uid tid sb s).2.post =
          sqlUpdate (matchesOwned uid tid) (setFlags sb) s.post := by
        simp [patchTasks, hfe]
      rw [h2] at hr
      unfold sqlUpdate at hr
      obtain ⟨r0, hr0, heq⟩ := List.mem_map.mp hr
      by_cases h0 : matchesOwned uid tid r0 = true
      · rw [if_pos h0] at heq
        rw [← heq]
        exact ⟨rfl, rfl⟩
      · rw [if_neg h0] at heq
        rw [← heq] at hmatch
        exact absurd hmatch h0

/-- C10: whenever POST /register, POST /login, POST /tasks or
PUT /tasks/:id rejects a request for a missing or empty required field,
the answer is the ValidationError, the store comes back unchanged, and the
response part is the same for every store state, so the failure is decided
before any store access. -/
theorem c10_validation_atomic (hash : String → String)
    (compare : String → String → Bool) (secret : String) (now : Int)
    (rb : RegisterBody) (lb : LoginBody) (uid tid : Int) (cb : CreateBody)
    (eb : EditBody) (s : Store) :
    ((truthyStr rb.email = false ∨ truthyStr rb.password = false ∨
      truthyStr rb.firstname = false ∨ truthyStr rb.lastname = false) →
      register hash rb s =
        (.error (.validationError
          "Email, password, firstname, and lastname are required"), s) ∧
      ∀ s₂ : Store, (register hash rb s₂).1 = (register hash rb s).1 ∧
        (register hash rb s₂).2 = s₂) ∧
    ((truthyStr lb.email = false ∨ truthyStr lb.password = false) →
      login compare secret now lb s =
        (.error (.validationError "Email and password are required"), s) ∧
      ∀ s₂ : Store, (login compare secret now lb s₂).1 =
          (login compare secret now lb s).1 ∧
        (login compare secret now lb s₂).2 = s₂) ∧
    ((truthyStr cb.task = false ∨ truthyStr cb.type = false ∨
      truthyTime cb.remindertime = false) →
      createTask uid cb s =
        (.error (.validationError "Task, type, and remindertime are required"), s) ∧
      ∀ s₂ : Store, (createTask uid cb s₂).1 = (createTask uid cb s).1 ∧
        (createTask uid cb s₂).2 = s₂) ∧
    (truthyStr eb.editedtask = false →
      editContent uid tid eb s =
        (.error (.validationError "Task content is required"), s) ∧
      ∀ s₂ : Store, (editContent uid tid eb s₂).1 =
          (editContent uid tid eb s).1 ∧
        (editContent uid tid eb s₂).2 = s₂) := by
  refine ⟨fun h => ⟨?_, fun s₂ => ⟨?_, ?_⟩⟩, fun h => ⟨?_, fun s₂ => ⟨?_, ?_⟩⟩,
    fun h => ⟨?_, fun s₂ => ⟨?_, ?_⟩⟩, fun h => ⟨?_, fun s₂ => ⟨?_, ?_⟩⟩⟩
  · rcases h with h | h | h | h <;> simp [register, h]
  · rcases h with h | h | h | h <;> simp [register, h]
  · rcases h with h | h | h | h <;> simp [register, h]
  · rcases h with h | h <;> simp [login, h]
  · rcases h with h | h <;> simp [login, h]
  · rcases h with h | h <;> simp [login, h]
  · rcases h with h | h | h <;> simp [createTask, h]
  · rcases h with h | h | h <;> simp [createTask, h]
  · rcases h with h | h | h <;> simp [createTask, h]
  · simp [editContent, h]
  · simp [editContent, h]
  · simp [editContent, h]

/-- C7: the three status-transition routes PATCH /tasks/:id,
PATCH /dtasks/:id and PATCH /taskschange/:id are the same function on
every input; all three answer the same NotFoundError when no owned row
matches, and the store they leave behind is the same unconditional
overwrite of both flags on the owned rows. -/
theorem c7_patch_routes_identical (uid tid : Int) (b : StatusBody) (s : Store) :
    patchTasks uid tid b s = patchDtasks uid tid b s ∧
    patchDtasks uid tid b s = patchTaskschange uid tid b s ∧
    ((∀ r ∈ s.post, matchesOwned uid tid r = false) →
      patchTasks uid tid b s =
        (.error (.notFoundError "Task not found or unauthorized"), s) ∧
      patchDtasks uid tid b s =
        (.error (.notFoundError "Task not found or unauthorized"), s) ∧
      patchTaskschange uid tid b s =
        (.error (.notFoundError "Task not found or unauthorized"), s)) ∧
    (patchTasks uid tid b s).2.post =
      sqlUpdate (matchesOwned uid tid) (setFlags b) s.post := by
  refine ⟨rfl, rfl, ?_, ?_⟩
  · intro h
    have hnil : (sqlUpdate (matchesOwned uid tid) (setFlags b) s.post).filter
        (matchesOwned uid tid) = [] := by
      rw [sqlUpdate_id _ _ _ h]
      exact List.filter_eq_nil_iff.mpr (fun a ha => by simp [h a ha])
    refine ⟨?_, ?_, ?_⟩ <;>
      simp [patchTasks, patchDtasks, patchTaskschange, hnil]
  · rcases hfe : (sqlUpdate (matchesOwned uid tid) (setFlags b) s.post).filter
        (matchesOwned uid tid) with _ | ⟨row, rest⟩
    · have hall := sqlUpdate_filter_nil (matchesOwned_setFlags uid tid b) s.post hfe
      have hnil2 : List.filter (matchesOwned uid tid) s.post = [] :=
        List.filter_eq_nil_iff.mpr (fun a ha => by simp [hall a ha])
      simp [patchTasks, hfe, sqlUpdate_id _ _ _ hall, hnil2]
    · simp [patchTasks, hfe]

/-! Concrete sample data for the witnesses. -/

/-- A registered user. -/
def aliceRow : UserRow :=
  { id := 1, email := "alice@example.com", password := "h:pw123"
    firstname := "Alice", lastname := "A" }

/-- A pending task of user 1 (both flags false), reminder at 1900. -/
def taskPending : TaskRow :=
  { id := 1, user_id := 1, task := some "write report", type := some "work"
    timeofentry := some 100, completestatus := some false
    remindertime := some 1900, currentstatus := some false }

/-- A completed task of user 1 (completestatus true), far reminder. -/
def taskDone : TaskRow :=
  { id := 2, user_id := 1, task := some "buy milk", type := some "home"
    timeofentry := some 200, completestatus := some true
    remindertime := some 99999, currentstatus := some false }

/-- A hidden task of user 1 (currentstatus true), long overdue reminder. -/
def taskHidden : TaskRow :=
  { id := 3, user_id := 1, task := some "old entry", type := some "home"
    timeofentry := some 300, completestatus := some false
    remindertime := some 0, currentstatus := some true }

/-- A task owned by a different user (id 9, user 2). -/
def otherTask : TaskRow :=
  { id := 9, user_id := 2, task := some "other", type := some "misc"
    timeofentry := some 400, completestatus := some false
    remindertime := some 0, currentstatus := some false }

/-- The sample store. -/
def baseStore : Store :=
  { logindata := [aliceRow], post := [taskPending, taskDone, taskHidden, otherTask]
    nextUserId := 2, nextTaskId := 10 }

/-- A concrete stand-in for the salted hash primitive in the witnesses. -/
def demoHash (p : String) : String := String.append "h:" p

/-- A concrete stand-in for the hash comparison in the witnesses. -/
def demoCompare (p h : String) : Bool := h == String.append "h:" p

/-! Witnesses. -/

/-- Witness for C1 at the sample store. -/
theorem c1_witness :
    taskPending ∈ listPending 1 baseStore ∧
    taskDone ∉ listPending 1 baseStore ∧
    taskDone ∈ listCompleted 1 baseStore ∧
    taskHidden ∉ listPending 1 baseStore := by
  refine ⟨?_, ?_, ?_, ?_⟩
  · exact (c1_pending_completed_views 1 baseStore taskPending).1.mpr (by decide)
  · exact fun hmem =>
      absurd ((c1_pending_completed_views 1 baseStore taskDone).1.mp hmem) (by decide)
  · exact (c1_pending_completed_views 1 baseStore taskDone).2.1.mpr (by decide)
  · exact ((c1_pending_completed_views 1 baseStore taskHidden).2.2.1 (by decide)).1

/-- Witness for C2: at clock 2000 the long-overdue reminder of taskHidden
still qualifies, and the result is capped at 5. -/
theorem c2_witness :
    taskHidden ∈ listReminders 1 2000 baseStore ∧
    (listReminders 1 2000 baseStore).length ≤ 5 := by
  constructor
  · exact (c2_listReminders_spec 1 2000 baseStore).2.2.2 (by decide) taskHidden
      (by decide) (by decide) (by decide)
  · exact (c2_listReminders_spec 1 2000 baseStore).2.2.1

/-- Witness for C3: registering a fresh email succeeds, stores the hash
and answers the four public fields only. -/
theorem c3_witness :
    register demoHash
      { email := some "bob@example.com", password := some "pw"
        firstname := some "Bob", lastname := some "B" } baseStore =
      (.ok { id := 2, email := "bob@example.com", firstname := "Bob", lastname := "B" },
       { baseStore with
          logindata := baseStore.logindata ++
            [{ id := 2, email := "bob@example.com", password := demoHash "pw"
               firstname := "Bob", lastname := "B" }]
          nextUserId := 3 }) :=
  (((c3_register_contract demoHash
      { email := some "bob@example.com", password := some "pw"
        firstname := some "Bob", lastname := some "B" } baseStore).2
    (by decide) (by decide) (by decide) (by decide)).2 (by decide)).1

/-- Witness for C4: logging in with the correct credentials answers the
signed token over the stored row and the firstname. -/
theorem c4_witness :
    login demoCompare "secret" 500
      { email := some "alice@example.com", password := some "pw123" } baseStore =
      (.ok { token := jwtSign 1 "alice@example.com" "secret" 500
             firstname := "Alice" }, baseStore) :=
  ((((c4_login_contract demoCompare "secret" 500
      { email := some "alice@example.com", password := some "pw123" } baseStore).2
    (by decide) (by decide)).2 aliceRow [] (by decide)).2 (by decide)).1

/-- Witness for C5: the token signed at 500 validates at 1000 and is
rejected at 4100. -/
theorem c5_witness :
    validateToken (some (jwtSign 1 "alice@example.com" "secret" 500)) "secret" 1000 =
      .ok 1 "alice@example.com" ∧
    validateToken (some (jwtSign 1 "alice@example.com" "secret" 500)) "secret" 4100 =
      .invalid := by
  constructor
  · exact (c5_token_roundtrip demoCompare "secret" 500
      { email := some "alice@example.com", password := some "pw123" } baseStore
      { token := jwtSign 1 "alice@example.com" "secret" 500, firstname := "Alice" }
      baseStore 1000 rfl).2.2.2.1 (by decide)
  · exact (c5_token_roundtrip demoCompare "secret" 500
      { email := some "alice@example.com", password := some "pw123" } baseStore
      { token := jwtSign 1 "alice@example.com" "secret" 500, firstname := "Alice" }
      baseStore 4100 rfl).2.2.2.2 (by decide)

/-- Witness for C6: task 9 exists but is owned by user 2; for caller 1
both updates answer the not-found error and return the store unchanged. -/
theorem c6_witness :
    patchTasks 1 9 { completestatus := some true, currentstatus := some false }
        baseStore =
      (.error (.notFoundError "Task not found or unauthorized"), baseStore) ∧
    editContent 1 9 { editedtask := some "hijack", editedtype := some "x" }
        baseStore =
      (.error (.notFoundError "Task not found or unauthorized"), baseStore) := by
  have h := c6_ownership_isolation 1 9
    { completestatus := some true, currentstatus := some false }
    { editedtask := some "hijack", editedtype := some "x" } baseStore (by decide)
  exact ⟨h.1, h.2 (by decide)⟩

/-- Witness for C7 at the sample store. -/
theorem c7_witness :
    patchTasks 1 1 { completestatus := some true, currentstatus := some false }
        baseStore =
      patchDtasks 1 1 { completestatus := some true, currentstatus := some false }
        baseStore ∧
    patchDtasks 1 1 { completestatus := some true, currentstatus := some false }
        baseStore =
      patchTaskschange 1 1 { completestatus := some true, currentstatus := some false }
        baseStore :=
  ⟨(c7_patch_routes_identical 1 1
      { completestatus := some true, currentstatus := some false } baseStore).1,
   (c7_patch_routes_identical 1 1
      { completestatus := some true, currentstatus := some false } baseStore).2.1⟩

/-- Witness for C8: an edit with an absent editedtype rewrites the owned
row through the SET clause. -/
theorem c8_witness :
    (editContent 1 1 { editedtask := some "new text", editedtype := none }
        baseStore).2.post =
      sqlUpdate (matchesOwned 1 1)
        (setContent { editedtask := some "new text", editedtype := none })
        baseStore.post :=
  ((c8_editContent_contract 1 1
      { editedtask := some "new text", editedtype := none } baseStore).2.1
    (by decide)).2

/-- Witness for C9: a create with absent timeofentry and flags persists
them as NULL verbatim. -/
theorem c9_witness :
    createTask 1
      { task := some "new", type := some "work", timeofentry := none
        completestatus := none, remindertime := some 42, currentstatus := none }
      baseStore =
      (.ok { id := 10, user_id := 1, task := some "new", type := some "work"
             timeofentry := none, completestatus := none
             remindertime := some 42, currentstatus := none },
       { baseStore with
          post := baseStore.post ++
            [{ id := 10, user_id := 1, task := some "new", type := some "work"
               timeofentry := none, completestatus := none
               remindertime := some 42, currentstatus := none }]
          nextTaskId := 11 }) :=
  (c9_no_validation_verbatim 1 1
    { task := some "new", type := some "work", timeofentry := none
      completestatus := none, remindertime := some 42, currentstatus := none }
    { completestatus := none, currentstatus := none } baseStore
    (by decide) (by decide) (by decide)).1

/-- Witness for C10: a register with a missing email and an edit with an
empty editedtask fail with the ValidationError and leave the store alone. -/
theorem c10_witness :
    register demoHash
      { email := none, password := some "pw", firstname := some "Bob"
        lastname := some "B" } baseStore =
      (.error (.validationError
        "Email, password, firstname, and lastname are required"), baseStore) ∧
    (editContent 1 1 { editedtask := some "", editedtype := none } baseStore).2 =
      baseStore := by
  have h := c10_validation_atomic demoHash demoCompare "secret" 0
    { email := none, password := some "pw", firstname := some "Bob"
      lastname := some "B" }
    { email := some "e", password := some "p" } 1 1
    { task := some "t", type := some "y", timeofentry := none
      completestatus := none, remindertime := some 1, currentstatus := none }
    { editedtask := some "", editedtype := none } baseStore
  exact ⟨(h.1 (Or.inl (by decide))).1, ((h.2.2.2 (by decide)).2 baseStore).2⟩

end DailyTask
